import Mathlib

/-!
# Verification of the icclim `Frequency` model (`icclim/models/frequency.py`)

Shallow embedding of the frequency-resolution and time-bounds algorithms of
`icclim.models.frequency`, together with proofs of the specified properties.

Timestamps are modelled at hour resolution on the proleptic Gregorian
calendar (the standard-timestamp branch of the source, i.e. the
`pd.to_datetime` path); a timestamp is the number of hours since the
beginning of year 1.
-/

namespace Icclim

/-- A calendar date `(year, month, day)`, as produced by the time axis
(`da.time.dt.year` reads the `year` field) and by the date parser. -/
structure Date where
  year : Nat
  month : Nat
  day : Nat
deriving DecidableEq, Repr

/-- Proleptic Gregorian leap-year rule (as used by pandas timestamps). -/
def isLeap (y : Nat) : Bool :=
  y % 4 == 0 && (y % 100 != 0 || y % 400 == 0)

/-- Number of days of month `m` of year `y` (proleptic Gregorian). -/
def daysInMonth (y m : Nat) : Nat :=
  if m = 2 then (if isLeap y then 29 else 28)
  else if m = 4 ∨ m = 6 ∨ m = 9 ∨ m = 11 then 30
  else 31

/-- Number of days of the months of year `y` strictly before month `m`. -/
def daysBeforeMonth (y : Nat) : Nat → Nat
  | 0 => 0
  | 1 => 0
  | m + 2 => daysBeforeMonth y (m + 1) + daysInMonth y (m + 1)

/-- Number of days in year `y` (proleptic Gregorian). -/
def daysInYear (y : Nat) : Nat :=
  if isLeap y then 366 else 365

/-- Number of days strictly before year `y`, counting from year 1. -/
def daysBeforeYear (y : Nat) : Nat :=
  365 * (y - 1) + (y - 1) / 4 + (y - 1) / 400 - (y - 1) / 100

/-- Day number (days since 0001-01-01) of the date `(y, m, d)`. -/
def toDays (y m d : Nat) : Nat :=
  daysBeforeYear y + daysBeforeMonth y m + (d - 1)

/-- Timestamp (hours since 0001-01-01 00:00) of midnight of the date
`(y, m, d)`; the model of `pd.to_datetime(f"{y}-{m}-{d}")`. -/
def mkTS (y m d : Nat) : Int :=
  24 * (toDays y m d : Int)

/-- Midpoint of a bounds pair, `start + (end - start) / 2`. -/
def mid (s e : Int) : Int :=
  s + (e - s) / 2

/-- `t` floored to day resolution, the model of `.dt.floor("D")`. -/
def floorDay (t : Int) : Int :=
  24 * Int.fdiv t 24

/-- Inverse year extraction: starting from year `y` with `n` remaining days,
consume whole years (fuel-driven, fuel is an upper bound on the steps). -/
def yearFromDays : Nat → Nat → Nat → Nat × Nat
  | 0, y, n => (y, n)
  | fuel + 1, y, n =>
    if n < daysInYear y then (y, n)
    else yearFromDays fuel (y + 1) (n - daysInYear y)

/-- Inverse month extraction within year `y`. -/
def monthFromDays : Nat → Nat → Nat → Nat → Nat × Nat
  | 0, _, m, n => (m, n)
  | fuel + 1, y, m, n =>
    if n < daysInMonth y m then (m, n)
    else monthFromDays fuel y (m + 1) (n - daysInMonth y m)

/-- Date of the day number `n` (inverse of `toDays`). -/
def dateOfDays (n : Nat) : Date :=
  let p := yearFromDays (n + 1) 1 n
  let q := monthFromDays 12 p.1 1 p.2
  ⟨p.1, q.1, q.2 + 1⟩

/-- Model of the pandas `MonthBegin` offset (`to_offset("MS")`): roll a
timestamp forward to the start of the next month. -/
def monthBeginOffset (t : Int) : Int :=
  let dt := dateOfDays (t.toNat / 24)
  if dt.month = 12 then mkTS (dt.year + 1) 1 1
  else mkTS dt.year (dt.month + 1) 1

/-- Ordered insertion without duplicates, the building block of the model of
`np.unique`. -/
def insertUnique (x : Nat) : List Nat → List Nat
  | [] => [x]
  | y :: ys =>
    if x < y then x :: y :: ys
    else if x = y then y :: ys
    else y :: insertUnique x ys

/-- Model of `np.unique`: the distinct elements in increasing order. -/
def uniqueSorted (l : List Nat) : List Nat :=
  l.foldr insertUnique []

theorem mem_insertUnique (x a : Nat) (l : List Nat) :
    a ∈ insertUnique x l ↔ a = x ∨ a ∈ l := by
  induction l with
  | nil => simp [insertUnique]
  | cons y ys ih =>
    by_cases h1 : x < y
    · simp [insertUnique, h1]
    · by_cases h2 : x = y
      · subst h2
        simp [insertUnique, h1]
      · simp [insertUnique, h1, h2, ih]
        tauto

theorem sorted_insertUnique (x : Nat) (l : List Nat)
    (h : l.Sorted (· < ·)) : (insertUnique x l).Sorted (· < ·) := by
  induction l with
  | nil => simp [insertUnique]
  | cons y ys ih =>
    rw [List.sorted_cons] at h
    by_cases h1 : x < y
    · simp only [insertUnique, if_pos h1]
      rw [List.sorted_cons]
      refine ⟨?_, ?_⟩
      · intro b hb
        rcases List.mem_cons.mp hb with hb | hb
        · exact hb ▸ h1
        · exact h1.trans (h.1 b hb)
      · rw [List.sorted_cons]
        exact h
    · by_cases h2 : x = y
      · simp only [insertUnique, if_neg h1, if_pos h2]
        rw [List.sorted_cons]
        exact h
      · have hyx : y < x := by omega
        simp only [insertUnique, if_neg h1, if_neg h2]
        rw [List.sorted_cons]
        refine ⟨?_, ih h.2⟩
        intro b hb
        rcases (mem_insertUnique x b ys).mp hb with hb | hb
        · exact hb ▸ hyx
        · exact h.1 b hb

theorem sorted_uniqueSorted (l : List Nat) :
    (uniqueSorted l).Sorted (· < ·) := by
  induction l with
  | nil => simp [uniqueSorted]
  | cons x xs ih => exact sorted_insertUnique x _ ih

theorem mem_uniqueSorted (a : Nat) (l : List Nat) :
    a ∈ uniqueSorted l ↔ a ∈ l := by
  induction l with
  | nil => simp [uniqueSorted]
  | cons x xs ih =>
    show a ∈ insertUnique x (uniqueSorted xs) ↔ _
    rw [mem_insertUnique]
    simp [ih]

/-! ## The `Frequency` data model

Closures of the source are represented by tags recording the data they
capture: `post_processing` records which bounds updater was built and with
which arguments, `time_clipping` records which `select_time` filter the
closure would apply. -/

/-- Restriction applied during resampling, `dict(month=...)` or
`dict(date_bounds=...)`. -/
inductive Indexer where
  | month (months : List Int)
  | dateBounds (a b : String)
deriving DecidableEq, Repr

/-- Pre-filter dropping out-of-season time steps, the closures built by
`_get_month_filter` / `_get_filter_between_dates`. -/
inductive TimeClip where
  | monthFilter (months : List Int)
  | dateFilter (a b : String)
deriving DecidableEq, Repr

/-- Tag of the `post_processing` closure: either the regular-frequency
bounds updater `_get_time_bounds_updater(freq)` or the seasonal updater
`get_seasonal_time_updater(start_month, end_month, start_day, end_day)`. -/
inductive PostProc where
  | timeBoundsUpdater (freq : String)
  | seasonalTimeUpdater (start_month end_month start_day : Int) (end_day : Option Int)
deriving DecidableEq, Repr

/-- The `Frequency` dataclass. -/
structure Frequency where
  pandas_freq : String
  accepted_values : List String
  _description : String
  post_processing : Option PostProc
  units : String
  indexer : Option Indexer
  time_clipping : Option TimeClip := none
deriving DecidableEq, Repr

/-- Value stored in the kwargs dict built by `build_frequency_kwargs`. -/
inductive KwargValue where
  | str (s : String)
  | months (l : List Int)
  | dateBounds (a b : String)
deriving DecidableEq, Repr

/-- Kwargs with possible keys in `freq`, `month`, `date_bounds`
(`Frequency.build_frequency_kwargs`). -/
def Frequency.build_frequency_kwargs (f : Frequency) : List (String × KwargValue) :=
  [("freq", KwargValue.str f.pandas_freq)] ++
    (match f.indexer with
     | none => []
     | some (.month l) => [("month", KwargValue.months l)]
     | some (.dateBounds a b) => [("date_bounds", KwargValue.dateBounds a b)])

/-- The `FREQ_MAPPING` table of the source (rule token to words). -/
def FREQ_MAPPING : List (String × String) :=
  [("YS", "annual"), ("Y", "annual"), ("AS", "annual"), ("A", "annual"),
   ("MS", "monthly"), ("M", "monthly"), ("QS", "seasonal"), ("Q", "seasonal"),
   ("JAN", "January starting"), ("FEB", "February starting"),
   ("MAR", "March starting"), ("APR", "April starting"),
   ("MAY", "May starting"), ("JUN", "June starting"),
   ("JUL", "July starting"), ("AUG", "August starting"),
   ("SEP", "September starting"), ("OCT", "October starting"),
   ("NOV", "November starting"), ("DEC", "December starting"),
   ("DJF", "winter"), ("MAM", "spring"), ("JJA", "summer"), ("SON", "fall"),
   ("norm", "Normal"), ("m1", "january"), ("m2", "february"),
   ("m3", "march"), ("m4", "april"), ("m5", "may"), ("m6", "june"),
   ("m7", "july"), ("m8", "august"), ("m9", "september"), ("m10", "october"),
   ("m11", "november"), ("m12", "december")]

/-- The `description` property: the explicit description when non-empty,
otherwise the concatenation of the `FREQ_MAPPING` words of the parts of the
rule split on a dash (a missing key is a `KeyError`, modelled by `none`). -/
def Frequency.description (f : Frequency) : Option String :=
  if f._description ≠ "" then some f._description
  else ((f.pandas_freq.splitOn "-").mapM (fun tok => FREQ_MAPPING.lookup tok)).map
    String.join

/-- Errors raised by the module: `InvalidIcclimArgumentError` (the spec's
`InvalidFrequencySpecError`) plus the builtin Python errors reachable from
these code paths. -/
inductive IcclimError where
  | invalidArgument (msg : String)
  | keyError
  | indexError
  | parseError
deriving DecidableEq, Repr

/-- True exactly on `InvalidIcclimArgumentError` results. -/
def isInvalidArgumentError (r : Except IcclimError Frequency) : Bool :=
  match r with
  | .error (.invalidArgument _) => true
  | _ => false

/-- The fixed seasonal diagnostic message `SEASON_ERR_MSG`. -/
def SEASON_ERR_MSG : String :=
  "A season created using slice_mode must be made of either consecutive integer for months such as [1,2,3] or two string for dates such as [19 july, 14 august]."

/-- Modelled from the spec: `icclim.models.constants.AMJJAS_MONTHS` is not
under `src/`; the catalog docstring fixes it to April through September. -/
def AMJJAS_MONTHS : List Int := [4, 5, 6, 7, 8, 9]

/-- Modelled from the spec: `icclim.models.constants.ONDJFM_MONTHS` is not
under `src/`; the catalog docstring fixes it to October through March. -/
def ONDJFM_MONTHS : List Int := [10, 11, 12, 1, 2, 3]

/-- Modelled from the spec: `icclim.models.constants.DJF_MONTHS` is not
under `src/`; the catalog docstring fixes it to December through February. -/
def DJF_MONTHS : List Int := [12, 1, 2]

/-- Modelled from the spec: `icclim.models.constants.MAM_MONTHS` is not
under `src/`; the catalog docstring fixes it to March through May. -/
def MAM_MONTHS : List Int := [3, 4, 5]

/-- Modelled from the spec: `icclim.models.constants.JJA_MONTHS` is not
under `src/`; the catalog docstring fixes it to June through August. -/
def JJA_MONTHS : List Int := [6, 7, 8]

/-- Modelled from the spec: `icclim.models.constants.SON_MONTHS` is not
under `src/`; the catalog docstring fixes it to September through November. -/
def SON_MONTHS : List Int := [9, 10, 11]

/-- Modelled from the spec: `icclim.models.constants.MONTHS_MAP` is not under
`src/`; it maps a month number to the anchor token used in rules such as
`AS-DEC` (the tokens the catalog and `FREQ_MAPPING` use). -/
def MONTHS_MAP : List (Int × String) :=
  [(1, "JAN"), (2, "FEB"), (3, "MAR"), (4, "APR"), (5, "MAY"), (6, "JUN"),
   (7, "JUL"), (8, "AUG"), (9, "SEP"), (10, "OCT"), (11, "NOV"), (12, "DEC")]

/-- Dict access `MONTHS_MAP[m]`; `none` is a `KeyError`. -/
def monthsMap (m : Int) : Option String :=
  MONTHS_MAP.lookup m

/-- Python repr of a list of integers, for the interpolated messages. -/
def pyIntListRepr (l : List Int) : String :=
  "[" ++ String.intercalate ", " (l.map toString) ++ "]"

/-! ## Time-bounds builders -/

/-- The `_get_end_date` helper: the explicit day when given, otherwise the
end of the month (day 31 for December, else the first day of the next month
minus one day). Standard-calendar branch (`use_cftime=False`). -/
def _get_end_date (year month : Nat) (day : Option Nat) : Int :=
  match day with
  | some d => mkTS year month d
  | none =>
    if month = 12 then mkTS year 12 31
    else mkTS year (month + 1) 1 - 24

/-- The `add_time_bounds` closure returned by
`get_seasonal_time_updater(start_month, end_month, start_day, end_day)`,
on the standard-timestamp branch: for each distinct year of the input time
axis, one midpoint coordinate and one `(start, end)` bounds pair.
Returns `(new_time_axis, time_bounds)`. -/
def seasonal_add_time_bounds (start_month end_month : Nat) (start_day : Nat)
    (end_day : Option Nat) (times : List Date) : List Int × List (Int × Int) :=
  let da_years := uniqueSorted (times.map Date.year)
  let per_year := da_years.map (fun year =>
    let year_of_season_end := if start_month > end_month then year + 1 else year
    let start := mkTS year start_month start_day
    let e := _get_end_date year_of_season_end end_month end_day
    (mid start e, (start, e)))
  (per_year.map Prod.fst, per_year.map Prod.snd)

/-- The `add_time_bounds` closure returned by `_get_time_bounds_updater(freq)`
on the standard-timestamp branch; `off` models the offset `to_offset(freq)`
of the array engine. Returns `(new_time_axis, time_bounds)`. -/
def regular_add_time_bounds (off : Int → Int) (times : List Int) :
    List Int × List (Int × Int) :=
  let starts := times.map floorDay
  let ends := starts.map (fun s => off s - 24)
  (List.zipWith mid starts ends, starts.zip ends)

/-! ## Season validation and the seasonal builders -/

/-- The `_is_season_valid` check: for every index `i` below `len - 1`,
`months[i]` is in range and the pair `(months[i], months[i+1])` either
steps by one or wraps from 12 to 1. -/
def _is_season_valid : List Int → Bool
  | [] => true
  | [_] => true
  | a :: b :: rest =>
    (decide (0 < a) && decide (a < 13) &&
      (if a > b then decide (b = 1) && decide (a = 12)
       else decide (b - a = 1)))
    && _is_season_valid (b :: rest)

/-- Validity rule in the words of the spec: every month in `[1, 12]`, every
consecutive pair differs by exactly 1 except a single allowed wrap from 12
to 1. -/
def specSeasonValid (months : List Int) : Bool :=
  months.all (fun m => decide (1 ≤ m) && decide (m ≤ 12)) &&
  (months.zip months.tail).all
    (fun p => decide (p.2 - p.1 = 1) || (decide (p.1 = 12) && decide (p.2 = 1))) &&
  decide (((months.zip months.tail).filter
    (fun p => decide (p.1 = 12) && decide (p.2 = 1))).length ≤ 1)

/-- The `_build_frequency_filtered_by_month` builder: an `MS` frequency with
the raw month payload as indexer, never validated. -/
def _build_frequency_filtered_by_month (months : List Int) : Frequency :=
  { indexer := some (.month months),
    post_processing := some (.timeBoundsUpdater "MS"),
    pandas_freq := "MS",
    _description := "monthly time series (months: " ++ pyIntListRepr months ++ ")",
    accepted_values := [],
    units := "months",
    time_clipping := none }

/-- The `_build_seasonal_frequency_for_months` builder (after the tuple
concatenation): validity check, then construction; indexing an empty season
is an `IndexError` and a month missing from `MONTHS_MAP` a `KeyError`. -/
def _build_seasonal_frequency_for_months (season : List Int) (clipped : Bool) :
    Except IcclimError Frequency :=
  if ¬ _is_season_valid season then .error (.invalidArgument SEASON_ERR_MSG)
  else
    match season with
    | [] => .error .indexError
    | m0 :: rest =>
      match monthsMap m0, monthsMap ((m0 :: rest).getLast (by simp)) with
      | some n0, some nLast =>
        .ok { indexer := if clipped then none else some (.month (m0 :: rest)),
              time_clipping :=
                if clipped then some (.monthFilter (m0 :: rest)) else none,
              post_processing :=
                some (.seasonalTimeUpdater m0
                  ((m0 :: rest).getLast (by simp)) 1 none),
              pandas_freq := "AS-" ++ n0,
              _description :=
                "seasonal time series (season: " ++ pyIntListRepr (m0 :: rest) ++ ")",
              accepted_values := [],
              units := n0 ++ "_" ++ nLast ++ "_seasons" }
      | _, _ => .error .keyError

/-- Month names accepted by the date parser. -/
def monthNames : List (String × Nat) :=
  [("january", 1), ("february", 2), ("march", 3), ("april", 4), ("may", 5),
   ("june", 6), ("july", 7), ("august", 8), ("september", 9), ("october", 10),
   ("november", 11), ("december", 12)]

/-- Modelled from the spec: `icclim.utils.read_date` is not under `src/`;
the spec gives it as a free-text date parser used for the two-date season
form, with inputs such as `19 july`. Parses a day number followed by a
month name; the year of the parsed date is irrelevant to the season. -/
def read_date (s : String) : Option Date :=
  match s.toLower.splitOn " " with
  | [dstr, mstr] =>
    match dstr.toNat?, monthNames.lookup mstr with
    | some d, some m =>
      if 1 ≤ d ∧ d ≤ daysInMonth 1900 m then some ⟨1900, m, d⟩ else none
    | _, _ => none
  | _ => none

/-- Zero-padded two-digit rendering, for `strftime("%m-%d")`. -/
def fmt2 (n : Nat) : String :=
  if n < 10 then "0" ++ toString n else toString n

/-- The `_build_seasonal_frequency_between_dates` builder: exactly two date
strings, parsed by `read_date`, formatted `MM-DD`. -/
def _build_seasonal_frequency_between_dates (season : List String)
    (clipped : Bool) : Except IcclimError Frequency :=
  if season.length ≠ 2 then .error (.invalidArgument SEASON_ERR_MSG)
  else
    match read_date (season.headD ""), read_date (season.getLastD "") with
    | some b, some e =>
      let bf := fmt2 b.month ++ "-" ++ fmt2 b.day
      let ef := fmt2 e.month ++ "-" ++ fmt2 e.day
      match monthsMap (b.month : Int), monthsMap (e.month : Int) with
      | some nb, some ne =>
        .ok { indexer := if clipped then none else some (.dateBounds bf ef),
              time_clipping := if clipped then some (.dateFilter bf ef) else none,
              post_processing :=
                some (.seasonalTimeUpdater (b.month : Int) (e.month : Int)
                  (b.day : Int) (some (e.day : Int))),
              pandas_freq := "AS-" ++ nb,
              _description :=
                "seasonal time series (season: from " ++ bf ++ " to " ++ ef ++ ")",
              accepted_values := [],
              units := nb ++ "_" ++ ne ++ "_seasons" }
      | _, _ => .error .keyError
    | _, _ => .error .parseError

/-! ## Frequency resolution -/

/-- An element of a `slice_mode` list: the payload shapes the source
dispatches on (a string, a list of month integers, a list of date strings,
or a pair of integer lists to be concatenated). -/
inductive SliceElem where
  | str (s : String)
  | intList (l : List Int)
  | strList (l : List String)
  | intPair (a b : List Int)
deriving DecidableEq, Repr

/-- A `slice_mode` input: a `Frequency`, a string, a sequence, or a value of
any other type. -/
inductive SliceMode where
  | freq (f : Frequency)
  | str (s : String)
  | seq (l : List SliceElem)
  | other
deriving DecidableEq, Repr

/-- Integer content of a month payload. The source forwards the payload
unchecked into the indexer; the typed embedding represents the integer-list
payload (the only shape the claims exercise), other shapes by their
(empty) integer content. -/
def monthsPayload : SliceElem → List Int
  | .intList l => l
  | _ => []

/-- The `_build_seasonal_freq` dispatch: date strings when the first element
of the payload is a string, months when the payload is a tuple or starts
with an integer; indexing an empty payload is an `IndexError` (a string
payload is indexed character by character, as in Python). -/
def _build_seasonal_freq (season : SliceElem) (clipped : Bool) :
    Except IcclimError Frequency :=
  match season with
  | .strList [] => .error .indexError
  | .strList l => _build_seasonal_frequency_between_dates l clipped
  | .intPair a b => _build_seasonal_frequency_for_months (a ++ b) clipped
  | .intList [] => .error .indexError
  | .intList l => _build_seasonal_frequency_for_months l clipped
  | .str s =>
    match s.data with
    | [] => .error .indexError
    | _ :: _ =>
      _build_seasonal_frequency_between_dates
        (s.data.map fun c => String.mk [c]) clipped

/-- The `_get_frequency_from_iterable` dispatch: a list shorter than two
elements is rejected, then the keyword selects the builder. -/
def _get_frequency_from_iterable (slice_mode_list : List SliceElem) :
    Except IcclimError Frequency :=
  match slice_mode_list with
  | kw :: payload :: _ =>
    if kw = .str "month" ∨ kw = .str "months" then
      .ok (_build_frequency_filtered_by_month (monthsPayload payload))
    else if kw = .str "season" then _build_seasonal_freq payload false
    else if kw = .str "clipped_season" then _build_seasonal_freq payload true
    else
      .error (.invalidArgument
        "Unknown frequency. The sampling frequency must be one of season, month")
  | _ =>
    .error (.invalidArgument
      "Invalid slice_mode format. When slice_mode is a list, its first element must be a keyword and its second a list.")

/-! ## The catalog (`FrequencyRegistry`) -/

namespace FrequencyRegistry

/-- Resample to hourly values. -/
def HOUR : Frequency :=
  { pandas_freq := "H",
    accepted_values := ["hour", "h", "hourly"],
    _description := "hourly",
    indexer := none,
    post_processing := some (.timeBoundsUpdater "H"),
    units := "hours",
    time_clipping := none }

/-- Resample to daily values. -/
def DAY : Frequency :=
  { pandas_freq := "D",
    accepted_values := ["daily", "day", "days", "d"],
    _description := "daily",
    indexer := none,
    post_processing := some (.timeBoundsUpdater "D"),
    units := "days",
    time_clipping := none }

/-- Resample to monthly values. -/
def MONTH : Frequency :=
  { pandas_freq := "MS",
    accepted_values := ["month", "monthly", "MS"],
    _description := "monthly",
    indexer := none,
    post_processing := some (.timeBoundsUpdater "MS"),
    units := "months",
    time_clipping := none }

/-- Resample to yearly values. -/
def YEAR : Frequency :=
  { pandas_freq := "YS",
    accepted_values := ["year", "yearly", "annual", "YS"],
    _description := "annual",
    indexer := none,
    post_processing := some (.timeBoundsUpdater "YS"),
    units := "years",
    time_clipping := none }

/-- Resample to summer half-year, from April to September included. -/
def AMJJAS : Frequency :=
  { pandas_freq := "AS-APR",
    accepted_values := ["AMJJAS"],
    _description := "summer half-year",
    indexer := some (.month AMJJAS_MONTHS),
    post_processing := some (.seasonalTimeUpdater (AMJJAS_MONTHS.headD 0)
      (AMJJAS_MONTHS.getLastD 0) 1 none),
    units := "half_year_summer",
    time_clipping := none }

/-- Resample to winter half-year, from October to March included. -/
def ONDJFM : Frequency :=
  { pandas_freq := "AS-OCT",
    accepted_values := ["ONDJFM"],
    _description := "winter half-year",
    indexer := some (.month ONDJFM_MONTHS),
    post_processing := some (.seasonalTimeUpdater (ONDJFM_MONTHS.headD 0)
      (ONDJFM_MONTHS.getLastD 0) 1 none),
    units := "half_year_winter",
    time_clipping := none }

/-- Resample to winter season, from December to February included. -/
def DJF : Frequency :=
  { pandas_freq := "AS-DEC",
    accepted_values := ["DJF"],
    _description := "winter",
    indexer := some (.month DJF_MONTHS),
    post_processing := some (.seasonalTimeUpdater (DJF_MONTHS.headD 0)
      (DJF_MONTHS.getLastD 0) 1 none),
    units := "winter",
    time_clipping := none }

/-- Resample to spring season, from March to May included. -/
def MAM : Frequency :=
  { pandas_freq := "AS-MAR",
    accepted_values := ["MAM"],
    _description := "spring",
    indexer := some (.month MAM_MONTHS),
    post_processing := some (.seasonalTimeUpdater (MAM_MONTHS.headD 0)
      (MAM_MONTHS.getLastD 0) 1 none),
    units := "spring",
    time_clipping := none }

/-- Resample to summer season, from June to August included. -/
def JJA : Frequency :=
  { pandas_freq := "AS-JUN",
    accepted_values := ["JJA"],
    _description := "summer",
    indexer := some (.month JJA_MONTHS),
    post_processing := some (.seasonalTimeUpdater (JJA_MONTHS.headD 0)
      (JJA_MONTHS.getLastD 0) 1 none),
    units := "summer",
    time_clipping := none }

/-- Resample to fall season, from September to November included. -/
def SON : Frequency :=
  { pandas_freq := "AS-SEP",
    accepted_values := ["SON"],
    _description := "autumn",
    indexer := some (.month SON_MONTHS),
    post_processing := some (.seasonalTimeUpdater (SON_MONTHS.headD 0)
      (SON_MONTHS.getLastD 0) 1 none),
    units := "autumn",
    time_clipping := none }

/-- The `catalog()` mapping, in class-attribute definition order. -/
def catalog : List (String × Frequency) :=
  [("HOUR", HOUR), ("DAY", DAY), ("MONTH", MONTH), ("YEAR", YEAR),
   ("AMJJAS", AMJJAS), ("ONDJFM", ONDJFM), ("DJF", DJF), ("MAM", MAM),
   ("JJA", JJA), ("SON", SON)]

end FrequencyRegistry

/-- Modelled from the spec: the array engine offset-string validity check
(`pandas.tseries.frequencies.to_offset`) is an external collaborator; it
accepts an optional integer multiplier followed by a known offset token. -/
def isValidPandasFreq (q : String) : Bool :=
  let rest := String.mk (q.data.dropWhile Char.isDigit)
  ["H", "D", "W", "M", "MS", "SM", "SMS", "B", "Q", "QS", "A", "AS", "Y",
   "YS", "T", "min", "S", "W-MON", "W-SUN"].contains rest

/-- ASCII upper-casing, the model of Python `str.upper()` on the ASCII
alias strings (structural, unlike `String.toUpper`). -/
def pyUpper (s : String) : String :=
  String.mk (s.data.map Char.toUpper)

/-- ASCII lower-casing, the model of Python `str.lower()`. -/
def pyLower (s : String) : String :=
  String.mk (s.data.map Char.toLower)

/-- The `_get_frequency_from_string` resolution: first match the query
case-insensitively against catalog keys and aliases, else validate it as a
raw pandas rule and synthesize an ad-hoc `Frequency`. -/
def _get_frequency_from_string (query : String) : Except IcclimError Frequency :=
  match FrequencyRegistry.catalog.find?
      (fun kv => kv.1 == pyUpper query ||
        (kv.2.accepted_values.map pyUpper).contains (pyUpper query)) with
  | some kv => .ok kv.2
  | none =>
    if isValidPandasFreq query then
      .ok { post_processing := some (.timeBoundsUpdater query),
            pandas_freq := query,
            _description := "time series sampled on " ++ query,
            accepted_values := [],
            indexer := none,
            units := query,
            time_clipping := none }
    else
      .error (.invalidArgument ("Unknown frequency " ++ query ++
        ". Use either a valid icclim frequency or a valid pandas frequency"))

/-- The `FrequencyRegistry.lookup` entry point (`resolve_frequency`):
a `Frequency` passes through, a string and a sequence are dispatched, and
any other input type is an `InvalidIcclimArgumentError`. -/
def FrequencyRegistry.lookup : SliceMode → Except IcclimError Frequency
  | .freq f => .ok f
  | .str s => _get_frequency_from_string s
  | .seq l => _get_frequency_from_iterable l
  | .other =>
    .error (.invalidArgument "Unknown frequency. Use a Frequency from the registry")

/-! ## Helper lemmas -/

instance instDecEqExcept {ε α : Type} [DecidableEq ε] [DecidableEq α] :
    DecidableEq (Except ε α) := fun x y =>
  match x, y with
  | .ok a, .ok b =>
    if h : a = b then .isTrue (congrArg Except.ok h)
    else .isFalse (by simp [h])
  | .ok _, .error _ => .isFalse (by simp)
  | .error _, .ok _ => .isFalse (by simp)
  | .error e, .error f =>
    if h : e = f then .isTrue (congrArg Except.error h)
    else .isFalse (by simp [h])

theorem daysBeforeMonth_succ (y m : Nat) (h : 1 ≤ m) :
    daysBeforeMonth y (m + 1) = daysBeforeMonth y m + daysInMonth y m := by
  match m, h with
  | m + 1, _ => rfl

theorem daysInMonth_pos (y m : Nat) : 1 ≤ daysInMonth y m := by
  unfold daysInMonth
  split_ifs <;> omega

/-- Rolling to the first day of the next month and subtracting one day lands
on the last day of the month, in every (leap or not) year. -/
theorem mkTS_month_end (y m : Nat) (h : 1 ≤ m) :
    mkTS y (m + 1) 1 - 24 = mkTS y m (daysInMonth y m) := by
  have hpos := daysInMonth_pos y m
  have hd := daysBeforeMonth_succ y m h
  unfold mkTS toDays
  rw [hd]
  omega

/-! ## Claim theorems -/

/-- C1: for the seasonal time-bounds builder of a season
`(start_month, start_day, end_month, end_day)`, for every year `Y`
enumerated from the input time axis the recorded bounds pair is
`(start, end)` with `start = date(Y, start_month, start_day)`, the end year
is `Y + 1` exactly when `start_month > end_month`, and `end` is
`date(end_year, end_month, end_day)` when `end_day` is given, else the last
day of `end_month` — day 31 for December, first day of the next month minus
one day otherwise. -/
theorem seasonal_bounds_match_spec (sm em sd : Nat) (ed : Option Nat)
    (times : List Date) (h1 : 1 ≤ em) (h2 : em ≤ 12) :
    (seasonal_add_time_bounds sm em sd ed times).2 =
      (uniqueSorted (times.map Date.year)).map (fun Y =>
        (mkTS Y sm sd,
          match ed with
          | some d => mkTS (if sm > em then Y + 1 else Y) em d
          | none =>
            if em = 12 then mkTS (if sm > em then Y + 1 else Y) 12 31
            else mkTS (if sm > em then Y + 1 else Y) (em + 1) 1 - 24)) ∧
    (ed = none →
      (seasonal_add_time_bounds sm em sd ed times).2 =
        (uniqueSorted (times.map Date.year)).map (fun Y =>
          (mkTS Y sm sd,
            mkTS (if sm > em then Y + 1 else Y) em
              (daysInMonth (if sm > em then Y + 1 else Y) em)))) := by
  constructor
  · simp only [seasonal_add_time_bounds, List.map_map]
    rfl
  · intro hed
    subst hed
    simp only [seasonal_add_time_bounds, List.map_map]
    congr 1
    funext Y
    show (mkTS Y sm sd, _get_end_date _ em none) = _
    unfold _get_end_date
    by_cases h12 : em = 12
    · subst h12
      simp [daysInMonth]
    · rw [if_neg h12]
      have h11 : em ≤ 11 := by omega
      rw [mkTS_month_end _ em h1]

/-- Witness for C1 at the DJF season over the years of a 2000–2001 axis:
the 2000 season runs from 2000-12-01 to 2001-02-28 (2001 is not a leap
year). -/
theorem seasonal_bounds_match_spec_witness :
    (seasonal_add_time_bounds 12 2 1 none [⟨2000, 12, 1⟩, ⟨2000, 12, 2⟩]).2 =
      [(mkTS 2000 12 1, mkTS 2001 2 28)] := by
  have h := seasonal_bounds_match_spec 12 2 1 none
    [⟨2000, 12, 1⟩, ⟨2000, 12, 2⟩] (by decide) (by decide)
  rw [h.2 rfl]
  decide

/-- C2 counterexample: the month list `[12, 1, 2, …, 12, 1]` wraps from 12
to 1 twice, violating the claimed validity rule (a single allowed wrap),
yet resolving it with the `season` keyword succeeds. -/
theorem season_validation_spec_counterexample :
    specSeasonValid [12, 1, 2, 3, 4, 5, 6, 7, 8, 9, 10, 11, 12, 1] = false ∧
    (FrequencyRegistry.lookup (.seq [.str "season",
      .intList [12, 1, 2, 3, 4, 5, 6, 7, 8, 9, 10, 11, 12, 1]])).isOk = true := by
  decide

/-- C2 amended: resolution with the `season` keyword raises
`InvalidIcclimArgumentError` exactly when `_is_season_valid` is false, which
checks each consecutive pair (difference exactly 1, or a 12-to-1 wrap, with
repeated wraps permitted) and range-checks every month except the last;
`[1, 3, 2]` raises, `[12, 1, 2]` succeeds, while `[13]` passes the check
vacuously and instead fails with a `KeyError` on the month-name lookup. -/
theorem season_error_iff_is_season_valid :
    (∀ m : List Int,
      isInvalidArgumentError
          (FrequencyRegistry.lookup (.seq [.str "season", .intList m])) =
        !(_is_season_valid m)) ∧
    isInvalidArgumentError
        (FrequencyRegistry.lookup (.seq [.str "season", .intList [1, 3, 2]])) =
      true ∧
    (FrequencyRegistry.lookup (.seq [.str "season", .intList [12, 1, 2]])).isOk =
      true ∧
    FrequencyRegistry.lookup (.seq [.str "season", .intList [13]]) =
      .error .keyError := by
  refine ⟨?_, by decide, by decide, by decide⟩
  intro m
  cases m with
  | nil => rfl
  | cons a rest =>
    show isInvalidArgumentError
        (_build_seasonal_frequency_for_months (a :: rest) false) = _
    unfold _build_seasonal_frequency_for_months
    by_cases hv : _is_season_valid (a :: rest)
    · rw [if_neg (by simp [hv])]
      simp only [isInvalidArgumentError, hv, Bool.not_true]
      split
      · rename_i heq
        split at heq <;> simp_all
      · rfl
    · rw [if_pos (by simp [hv])]
      simp [isInvalidArgumentError, hv]

/-- C3 counterexample: a `month` keyword with payload `[1]` — a payload of
length 1, so of length `< 2` — resolves successfully instead of raising. -/
theorem payload_length_counterexample :
    (FrequencyRegistry.lookup (.seq [.str "month", .intList [1]])).isOk = true := by
  decide

/-- C3 amended: a two-element `[keyword, payload]` whose keyword is not one
of `month`, `months`, `season`, `clipped_season` raises
`InvalidIcclimArgumentError`; an input sequence (not a payload) of length
`< 2` raises it; and an input whose type is neither a `Frequency`, a string
nor a sequence raises it. Payload length is not itself checked. -/
theorem iterable_error_cases (k : String) (p : SliceElem) (l : List SliceElem)
    (hk : k ∉ ["month", "months", "season", "clipped_season"])
    (hl : l.length < 2) :
    isInvalidArgumentError (FrequencyRegistry.lookup (.seq [.str k, p])) = true ∧
    isInvalidArgumentError (FrequencyRegistry.lookup (.seq l)) = true ∧
    isInvalidArgumentError (FrequencyRegistry.lookup .other) = true := by
  refine ⟨?_, ?_, rfl⟩
  · simp only [List.mem_cons, List.mem_singleton, not_or] at hk
    show isInvalidArgumentError (_get_frequency_from_iterable [.str k, p]) = true
    simp [_get_frequency_from_iterable, hk.1, hk.2.1, hk.2.2.1, hk.2.2.2.1,
      isInvalidArgumentError]
  · match l, hl with
    | [], _ => rfl
    | [_], _ => rfl

/-- Witness for C3 at a bogus keyword, a one-element sequence, and a
non-sequence input. -/
theorem iterable_error_cases_witness :
    isInvalidArgumentError
        (FrequencyRegistry.lookup (.seq [.str "bogus", .intList []])) = true ∧
    isInvalidArgumentError (FrequencyRegistry.lookup (.seq [.str "season"])) = true ∧
    isInvalidArgumentError (FrequencyRegistry.lookup .other) = true :=
  iterable_error_cases "bogus" (.intList []) [.str "season"]
    (by decide) (by decide)

set_option maxRecDepth 20000 in
/-- C4: for the regular (non-seasonal) bounds builder, every resampled
timestamp yields exactly one bounds pair `(start, end)` with
`start = floor(t, day)` and `end = start + offset - one day`, and the
coordinate is replaced by `start + (end - start) / 2`; with the monthly
offset this yields the January bounds `(2001-01-01, 2001-01-31)`. -/
theorem regular_bounds_match_spec (off : Int → Int) (times : List Int) :
    (regular_add_time_bounds off times).2 =
      times.map (fun t => (floorDay t, off (floorDay t) - 24)) ∧
    (regular_add_time_bounds off times).1 =
      times.map (fun t => mid (floorDay t) (off (floorDay t) - 24)) ∧
    (regular_add_time_bounds off times).2.length = times.length ∧
    regular_add_time_bounds monthBeginOffset [mkTS 2001 1 1] =
      ([mid (mkTS 2001 1 1) (mkTS 2001 1 31)],
        [(mkTS 2001 1 1, mkTS 2001 1 31)]) := by
  have hzip : ∀ ts : List Int,
      (ts.map floorDay).zip ((ts.map floorDay).map (fun s => off s - 24)) =
        ts.map (fun t => (floorDay t, off (floorDay t) - 24)) := by
    intro ts
    induction ts with
    | nil => rfl
    | cons a tl ih => simp only [List.map_cons, List.zip_cons_cons, ih]
  have hzw : ∀ ts : List Int,
      List.zipWith mid (ts.map floorDay)
          ((ts.map floorDay).map (fun s => off s - 24)) =
        ts.map (fun t => mid (floorDay t) (off (floorDay t) - 24)) := by
    intro ts
    induction ts with
    | nil => rfl
    | cons a tl ih => simp only [List.map_cons, List.zipWith_cons_cons, ih]
  refine ⟨hzip times, hzw times, ?_, by decide⟩
  have h2 : (regular_add_time_bounds off times).2 =
      times.map (fun t => (floorDay t, off (floorDay t) - 24)) := hzip times
  rw [h2, List.length_map]

/-- C5: for the seasonal bounds builder, each rewritten coordinate is the
midpoint `start + (end - start) / 2` of its bounds pair, there is one
coordinate per distinct year of the input time axis, the years are in
increasing order, and the bounds sequence has the same length as the
rewritten coordinate. -/
theorem seasonal_coordinate_midpoints_and_order (sm em sd : Nat)
    (ed : Option Nat) (times : List Date) :
    (seasonal_add_time_bounds sm em sd ed times).1 =
      (seasonal_add_time_bounds sm em sd ed times).2.map (fun p => mid p.1 p.2) ∧
    (seasonal_add_time_bounds sm em sd ed times).1.length =
      (uniqueSorted (times.map Date.year)).length ∧
    (seasonal_add_time_bounds sm em sd ed times).2.length =
      (seasonal_add_time_bounds sm em sd ed times).1.length ∧
    (uniqueSorted (times.map Date.year)).Sorted (· < ·) ∧
    (∀ y, y ∈ uniqueSorted (times.map Date.year) ↔ y ∈ times.map Date.year) := by
  refine ⟨?_, ?_, ?_, sorted_uniqueSorted _, fun y => mem_uniqueSorted y _⟩
  · simp only [seasonal_add_time_bounds, List.map_map]
    rfl
  · simp [seasonal_add_time_bounds]
  · simp [seasonal_add_time_bounds]

theorem inv_build_seasonal_for_months (season : List Int) (c : Bool)
    (f : Frequency) (h : _build_seasonal_frequency_for_months season c = .ok f) :
    f.indexer = none ∨ f.time_clipping = none := by
  unfold _build_seasonal_frequency_for_months at h
  split at h
  · exact absurd h (by simp)
  · split at h
    · exact absurd h (by simp)
    · split at h
      · simp only [Except.ok.injEq] at h
        subst h
        cases c <;> simp
      · exact absurd h (by simp)

theorem inv_build_seasonal_between_dates (season : List String) (c : Bool)
    (f : Frequency)
    (h : _build_seasonal_frequency_between_dates season c = .ok f) :
    f.indexer = none ∨ f.time_clipping = none := by
  unfold _build_seasonal_frequency_between_dates at h
  split at h
  · exact absurd h (by simp)
  · split at h
    · split at h
      · simp only [Except.ok.injEq] at h
        subst h
        cases c <;> simp
      · exact absurd h (by simp)
    · exact absurd h (by simp)

theorem inv_build_seasonal_freq (payload : SliceElem) (c : Bool)
    (f : Frequency) (h : _build_seasonal_freq payload c = .ok f) :
    f.indexer = none ∨ f.time_clipping = none := by
  unfold _build_seasonal_freq at h
  split at h <;>
    first
      | exact absurd h (by simp)
      | exact inv_build_seasonal_between_dates _ c f h
      | exact inv_build_seasonal_for_months _ c f h
      | (split at h <;>
          first
            | exact absurd h (by simp)
            | exact inv_build_seasonal_between_dates _ c f h)

theorem inv_catalog :
    ∀ kv ∈ FrequencyRegistry.catalog,
      kv.2.indexer = none ∨ kv.2.time_clipping = none := by
  decide

/-- C6: every `Frequency` produced by string or sequence resolution has at
most one of `indexer` / `time_clipping` non-null; `clipped_season` yields a
null indexer and non-null clipping, `season` the inverse, and the plain
calendar catalog entries have both null. -/
theorem resolution_indexer_clipping_exclusive :
    (∀ s f, FrequencyRegistry.lookup (.str s) = .ok f →
      f.indexer = none ∨ f.time_clipping = none) ∧
    (∀ l f, FrequencyRegistry.lookup (.seq l) = .ok f →
      f.indexer = none ∨ f.time_clipping = none) ∧
    FrequencyRegistry.lookup (.seq [.str "clipped_season", .intList [6, 7, 8]]) =
      .ok { pandas_freq := "AS-JUN",
            accepted_values := [],
            _description := "seasonal time series (season: [6, 7, 8])",
            post_processing := some (.seasonalTimeUpdater 6 8 1 none),
            units := "JUN_AUG_seasons",
            indexer := none,
            time_clipping := some (.monthFilter [6, 7, 8]) } ∧
    FrequencyRegistry.lookup (.seq [.str "season", .intList [6, 7, 8]]) =
      .ok { pandas_freq := "AS-JUN",
            accepted_values := [],
            _description := "seasonal time series (season: [6, 7, 8])",
            post_processing := some (.seasonalTimeUpdater 6 8 1 none),
            units := "JUN_AUG_seasons",
            indexer := some (.month [6, 7, 8]),
            time_clipping := none } ∧
    (FrequencyRegistry.HOUR.indexer = none ∧
      FrequencyRegistry.HOUR.time_clipping = none) ∧
    (FrequencyRegistry.DAY.indexer = none ∧
      FrequencyRegistry.DAY.time_clipping = none) ∧
    (FrequencyRegistry.MONTH.indexer = none ∧
      FrequencyRegistry.MONTH.time_clipping = none) ∧
    (FrequencyRegistry.YEAR.indexer = none ∧
      FrequencyRegistry.YEAR.time_clipping = none) := by
  refine ⟨?_, ?_, by decide, by decide, by decide, by decide, by decide, by decide⟩
  · intro s f h
    have hs : _get_frequency_from_string s = .ok f := h
    unfold _get_frequency_from_string at hs
    split at hs
    · next kv heq =>
        simp only [Except.ok.injEq] at hs
        subst hs
        exact inv_catalog kv (List.mem_of_find?_eq_some heq)
    · split at hs
      · simp only [Except.ok.injEq] at hs
        subst hs
        exact Or.inl rfl
      · exact absurd hs (by simp)
  · intro l f h
    have hs : _get_frequency_from_iterable l = .ok f := h
    unfold _get_frequency_from_iterable at hs
    split at hs
    · split at hs
      · simp only [Except.ok.injEq] at hs
        subst hs
        exact Or.inr rfl
      · split at hs
        · exact inv_build_seasonal_freq _ _ f hs
        · split at hs
          · exact inv_build_seasonal_freq _ _ f hs
          · exact absurd hs (by simp)
    · exact absurd hs (by simp)

/-- Witness for C6 at the `day` alias: the resolved catalog entry keeps the
exclusivity invariant. -/
theorem resolution_indexer_clipping_exclusive_witness :
    FrequencyRegistry.DAY.indexer = none ∨
      FrequencyRegistry.DAY.time_clipping = none :=
  resolution_indexer_clipping_exclusive.1 "day" FrequencyRegistry.DAY (by decide)

/-- C7: every registered alias, its upper-cased and its lower-cased form all
resolve to the identical catalog `Frequency`. -/
theorem alias_resolution_case_insensitive :
    ∀ kv ∈ FrequencyRegistry.catalog, ∀ a ∈ kv.2.accepted_values,
      FrequencyRegistry.lookup (.str a) = .ok kv.2 ∧
      FrequencyRegistry.lookup (.str (pyUpper a)) = .ok kv.2 ∧
      FrequencyRegistry.lookup (.str (pyLower a)) = .ok kv.2 := by
  decide

/-- Witness for C7 at the `monthly` alias of the MONTH entry. -/
theorem alias_resolution_case_insensitive_witness :
    FrequencyRegistry.lookup (.str "monthly") = .ok FrequencyRegistry.MONTH ∧
    FrequencyRegistry.lookup (.str (pyUpper "monthly")) =
      .ok FrequencyRegistry.MONTH ∧
    FrequencyRegistry.lookup (.str (pyLower "monthly")) =
      .ok FrequencyRegistry.MONTH :=
  alias_resolution_case_insensitive ("MONTH", FrequencyRegistry.MONTH)
    (by decide) "monthly" (by decide)

/-- C8: a string matching no catalog alias raises
`InvalidIcclimArgumentError` when it is not a valid offset token, and
otherwise resolves to a fresh ad-hoc `Frequency` whose rule is the string
itself, with null indexer and clipping and a description derived from the
string. -/
theorem raw_pandas_rule_resolution (q : String)
    (hmiss : FrequencyRegistry.catalog.find?
      (fun kv => kv.1 == pyUpper q ||
        (kv.2.accepted_values.map pyUpper).contains (pyUpper q)) = none) :
    (isValidPandasFreq q = false →
      FrequencyRegistry.lookup (.str q) =
        .error (.invalidArgument ("Unknown frequency " ++ q ++
          ". Use either a valid icclim frequency or a valid pandas frequency"))) ∧
    (isValidPandasFreq q = true →
      ∃ f, FrequencyRegistry.lookup (.str q) = .ok f ∧
        f.pandas_freq = q ∧ f.indexer = none ∧ f.time_clipping = none ∧
        f.description = some ("time series sampled on " ++ q)) := by
  have hne : ("time series sampled on " ++ q) ≠ "" := by
    intro hc
    have hlen : ("time series sampled on " ++ q).length = 23 + q.length := by
      rw [String.length_append]
      rfl
    rw [hc] at hlen
    have h0 : ("" : String).length = 0 := rfl
    rw [h0] at hlen
    omega
  constructor
  · intro hv
    show _get_frequency_from_string q = _
    unfold _get_frequency_from_string
    rw [hmiss]
    simp [hv]
  · intro hv
    refine ⟨{ post_processing := some (.timeBoundsUpdater q),
              pandas_freq := q,
              _description := "time series sampled on " ++ q,
              accepted_values := [],
              indexer := none,
              units := q,
              time_clipping := none }, ?_, rfl, rfl, rfl, ?_⟩
    · show _get_frequency_from_string q = _
      unfold _get_frequency_from_string
      rw [hmiss]
      simp [hv]
    · simp [Frequency.description, hne]

/-- Witness for C8 at the invalid token `junk` and the valid raw rule
`3MS`. -/
theorem raw_pandas_rule_resolution_witness :
    FrequencyRegistry.lookup (.str "junk") =
      .error (.invalidArgument ("Unknown frequency " ++ "junk" ++
        ". Use either a valid icclim frequency or a valid pandas frequency")) ∧
    (∃ f, FrequencyRegistry.lookup (.str "3MS") = .ok f ∧
      f.pandas_freq = "3MS" ∧ f.indexer = none ∧ f.time_clipping = none ∧
      f.description = some ("time series sampled on " ++ "3MS")) :=
  ⟨(raw_pandas_rule_resolution "junk" (by decide)).1 (by decide),
    (raw_pandas_rule_resolution "3MS" (by decide)).2 (by decide)⟩

/-- Entry contributed to the kwargs dict by an indexer. -/
def indexerEntry : Indexer → String × KwargValue
  | .month l => ("month", .months l)
  | .dateBounds a b => ("date_bounds", .dateBounds a b)

/-- C9: for every catalog `Frequency`, the resampling kwargs map `freq` to
exactly the non-empty base rule, followed by the indexer entries when the
indexer is non-null and by nothing otherwise. -/
theorem catalog_resampling_kwargs :
    ∀ kv ∈ FrequencyRegistry.catalog,
      (Frequency.build_frequency_kwargs kv.2).lookup "freq" =
        some (KwargValue.str kv.2.pandas_freq) ∧
      kv.2.pandas_freq ≠ "" ∧
      Frequency.build_frequency_kwargs kv.2 =
        ("freq", KwargValue.str kv.2.pandas_freq) ::
          (kv.2.indexer.toList.map indexerEntry) := by
  decide

/-- Witness for C9 at the DJF catalog entry. -/
theorem catalog_resampling_kwargs_witness :
    (Frequency.build_frequency_kwargs FrequencyRegistry.DJF).lookup "freq" =
      some (KwargValue.str FrequencyRegistry.DJF.pandas_freq) ∧
    FrequencyRegistry.DJF.pandas_freq ≠ "" ∧
    Frequency.build_frequency_kwargs FrequencyRegistry.DJF =
      ("freq", KwargValue.str FrequencyRegistry.DJF.pandas_freq) ::
        (FrequencyRegistry.DJF.indexer.toList.map indexerEntry) :=
  catalog_resampling_kwargs ("DJF", FrequencyRegistry.DJF) (by decide)

/-- C10: the `month`/`months` keyword never raises: for every integer list
`m` it yields the monthly `MS` frequency with `m` as month indexer, with no
validation, so out-of-range values such as 0 or 13 are accepted silently. -/
theorem month_keyword_never_validated (m : List Int) :
    FrequencyRegistry.lookup (.seq [.str "month", .intList m]) =
      .ok { indexer := some (.month m),
            post_processing := some (.timeBoundsUpdater "MS"),
            pandas_freq := "MS",
            _description := "monthly time series (months: " ++ pyIntListRepr m ++ ")",
            accepted_values := [],
            units := "months",
            time_clipping := none } ∧
    FrequencyRegistry.lookup (.seq [.str "months", .intList m]) =
      .ok { indexer := some (.month m),
            post_processing := some (.timeBoundsUpdater "MS"),
            pandas_freq := "MS",
            _description := "monthly time series (months: " ++ pyIntListRepr m ++ ")",
            accepted_values := [],
            units := "months",
            time_clipping := none } ∧
    (FrequencyRegistry.lookup (.seq [.str "month", .intList [0, 13]])).isOk =
      true := by
  refine ⟨?_, ?_, by decide⟩
  · show _get_frequency_from_iterable [.str "month", .intList m] = _
    simp [_get_frequency_from_iterable, _build_frequency_filtered_by_month,
      monthsPayload]
  · show _get_frequency_from_iterable [.str "months", .intList m] = _
    simp [_get_frequency_from_iterable, _build_frequency_filtered_by_month,
      monthsPayload]

end Icclim
